import Mathlib

/-!
Shallow embedding of the CBDB-CHGIS-MCP tool modules.

The repository consists of three Python modules (cbdb_addr/cbdb_addr.py,
cbdb_addr_person/cbdb_addr_person.py, chgis/chgis.py), each exposing MCP tool
functions that wrap a single outbound HTTP GET request.  We embed:

* JSON values (`Json`), with Python dict key lookup and key assignment
  (`lookupKV`, `setKey`): assignment replaces the value of the first matching
  key in place, otherwise appends a new entry at the end, and lookup returns
  the first match — this is exactly Python dict semantics on our
  association-list representation of a decoded JSON object;
* Python json.dumps with its default settings (`Json.dumps`): item separator
  ", ", key separator ": ", ensure_ascii escaping of every character outside
  0x20..0x7E;
* the outcome of the single httpx.AsyncClient.get call (`HttpResult`): a
  transport-level failure (httpx.RequestError) or a response carrying a status
  code and a body that either decodes to JSON or fails to decode;
* the response.raise_for_status() plus response.json() pipeline (`fetchJson`):
  raise_for_status raises httpx.HTTPStatusError for any non-2xx status, and
  response.json() raises a ValueError when the body does not decode;
* each tool function as a pure function from its arguments and the
  `HttpResult` of its single request to the returned dictionary, with the
  try/except handlers of the source translated arm by arm.
-/

/-- A decoded JSON value.  Objects are association lists in insertion order,
mirroring a decoded Python dict. -/
inductive Json where
  | null
  | bool (b : Bool)
  | int (n : Int)
  | str (s : String)
  | arr (elements : List Json)
  | obj (entries : List (String × Json))

/-- Python dict lookup `d[k]` / membership `k in d` on a decoded JSON object:
the first entry with the given key, if any. -/
def lookupKV : List (String × Json) → String → Option Json
  | [], _ => none
  | (k, v) :: rest, key => if k = key then some v else lookupKV rest key

/-- Python dict assignment `d[k] = v`: replace the value of the first entry
with the given key, or append a new entry at the end. -/
def setKey : List (String × Json) → String → Json → List (String × Json)
  | [], key, v => [(key, v)]
  | (k, w) :: rest, key, v =>
      if k = key then (key, v) :: rest else (k, w) :: setKey rest key v

/-- Python truthiness of a decoded JSON value (`if results["placenames"]:`):
None, False, 0, empty string, empty list and empty dict are falsy. -/
def Json.truthy : Json → Bool
  | .null => false
  | .bool b => b
  | .int n => n != 0
  | .str s => !s.isEmpty
  | .arr es => !es.isEmpty
  | .obj kvs => !kvs.isEmpty

/-- One hexadecimal digit, lowercase, as produced by Python json escapes. -/
def hexDigit (n : Nat) : Char :=
  if n < 10 then Char.ofNat (48 + n) else Char.ofNat (87 + n)

/-- Four-digit lowercase hexadecimal rendering used in a Python \uXXXX escape. -/
def toHex4 (n : Nat) : String :=
  String.mk [hexDigit (n / 4096 % 16), hexDigit (n / 256 % 16),
             hexDigit (n / 16 % 16), hexDigit (n % 16)]

/-- Escape one character the way Python json.dumps (ensure_ascii=True, the
default) does: short escapes for quote, backslash and common control
characters, \uXXXX (with surrogate pairs above 0xFFFF) for every other
character outside 0x20..0x7E. -/
def jsonEscapeChar (c : Char) : String :=
  if c = '"' then "\\\""
  else if c = '\\' then "\\\\"
  else if c = '\n' then "\\n"
  else if c = '\t' then "\\t"
  else if c = '\r' then "\\r"
  else if c.toNat = 8 then "\\b"
  else if c.toNat = 12 then "\\f"
  else if 32 ≤ c.toNat ∧ c.toNat ≤ 126 then String.singleton c
  else if c.toNat < 65536 then "\\u" ++ toHex4 c.toNat
  else
    "\\u" ++ toHex4 (55296 + (c.toNat - 65536) / 1024) ++
    "\\u" ++ toHex4 (56320 + (c.toNat - 65536) % 1024)

/-- Escape a whole string for Python json.dumps. -/
def jsonEscape (s : String) : String :=
  String.join (s.data.map jsonEscapeChar)

mutual

/-- Python json.dumps with default arguments: item separator ", ", key
separator ": ", None rendered as null. -/
def Json.dumps : Json → String
  | Json.null => "null"
  | Json.bool b => if b then "true" else "false"
  | Json.int n => toString n
  | Json.str s => "\"" ++ jsonEscape s ++ "\""
  | Json.arr es => "[" ++ Json.dumpsList es ++ "]"
  | Json.obj kvs => "\x7b" ++ Json.dumpsEntries kvs ++ "\x7d"

/-- Comma-separated rendering of a JSON array's elements. -/
def Json.dumpsList : List Json → String
  | [] => ""
  | [e] => Json.dumps e
  | e :: es => Json.dumps e ++ ", " ++ Json.dumpsList es

/-- Comma-separated rendering of a JSON object's entries. -/
def Json.dumpsEntries : List (String × Json) → String
  | [] => ""
  | [(k, v)] => "\"" ++ jsonEscape k ++ "\": " ++ Json.dumps v
  | (k, v) :: kvs =>
      "\"" ++ jsonEscape k ++ "\": " ++ Json.dumps v ++ ", " ++ Json.dumpsEntries kvs

end

/-- A typed query-parameter value, as stored in the Python params dict handed
to httpx. -/
inductive PVal where
  | s (v : String)
  | i (v : Int)
  deriving DecidableEq

/-- The single outbound HTTP request a tool issues.  Tools that use the
params= keyword carry their query parameters in `params`; the person-by-place
tool splices its payload into the URL itself.  All tools use GET and no
request body. -/
structure Request where
  method : String
  url : String
  params : List (String × PVal)
  body : Option String

/-- The Python exceptions that can reach the try/except handlers of the tool
functions.  `other` covers the generic `except Exception` category (for
example the ZeroDivisionError raised by the pagination arithmetic when
list_length = 0, or a TypeError from subscripting a non-list). -/
inductive PyExc where
  | requestError (msg : String)
  | httpStatusError (code : Nat)
  | valueError (msg : String)
  | other (msg : String)

/-- The interpolated text `f"{e}"` of an exception.  For the exceptions whose
text the code never inspects beyond interpolation, the rendering is the
carried message; the text of an httpx.HTTPStatusError is modelled abstractly
as a string mentioning its status code (no claim depends on its exact form). -/
def PyExc.str : PyExc → String
  | .requestError m => m
  | .httpStatusError code => "HTTP status exception for code " ++ toString code
  | .valueError m => m
  | .other m => m

/-- The outcome of the one `client.get` call a tool makes: either the request
itself fails at the transport level (httpx.RequestError), or a response comes
back with a status code and a body that either decodes to a JSON value or
fails to decode (the decoder message is carried). -/
inductive HttpResult where
  | transportError (msg : String)
  | response (status : Nat) (body : Except String Json)

/-- The `response.raise_for_status()` / `response.json()` pipeline shared by
every tool: a transport failure surfaces as httpx.RequestError;
raise_for_status raises httpx.HTTPStatusError for any status outside 2xx;
response.json() raises a ValueError (json.JSONDecodeError) when the body does
not decode. -/
def fetchJson : HttpResult → Except PyExc Json
  | .transportError msg => .error (.requestError msg)
  | .response status body =>
      if 200 ≤ status ∧ status < 300 then
        match body with
        | .ok j => .ok j
        | .error msg => .error (.valueError msg)
      else .error (.httpStatusError status)

/-- The error dictionary every handler returns. -/
def errObj (m : String) : Json := Json.obj [("error", Json.str m)]

/-- Normalize one bound of a Python slice `l[a:b]` (step 1): negative indices
count from the end and are clamped at 0; non-negative indices are clamped at
the length. -/
def pySliceIdx (len : Nat) (i : Int) : Nat :=
  if i < 0 then (i + len).toNat else min i.toNat len

/-- Python list slicing `l[a:b]` (step 1), with full negative-index and
clamping semantics. -/
def pySlice {α : Type} (l : List α) (a b : Int) : List α :=
  (l.drop (pySliceIdx l.length a)).take (pySliceIdx l.length b - pySliceIdx l.length a)

/-- Python `s.startswith(pre)`. -/
def pyStartswith (s pre : String) : Bool :=
  pre.data.isPrefixOf s.data

namespace cbdb_addr

/-- The query-parameter dict built by search_places_under_location in
cbdb_addr/cbdb_addr.py (lines 33-44): name, accurate, start and list always,
startTime and endTime only when provided. -/
def search_places_under_location_params (name : String) (accurate : Int)
    (startTime endTime : Option Int) (start list_length : Int) :
    List (String × PVal) :=
  [("name", PVal.s name), ("accurate", PVal.i accurate),
   ("start", PVal.i start), ("list", PVal.i list_length)]
  ++ (match startTime with | some t => [("startTime", PVal.i t)] | none => [])
  ++ (match endTime with | some t => [("endTime", PVal.i t)] | none => [])

/-- The single outbound request of search_places_under_location in
cbdb_addr/cbdb_addr.py: a GET on the place_list endpoint with the params
dict, no request body. -/
def search_places_under_location_request (name : String) (accurate : Int)
    (startTime endTime : Option Int) (start list_length : Int) : Request :=
  { method := "GET"
    url := "https://input.cbdb.fas.harvard.edu/api/place_list"
    params := search_places_under_location_params name accurate startTime endTime start list_length
    body := none }

/-- The value returned by search_places_under_location in
cbdb_addr/cbdb_addr.py (lines 46-54), as a function of the outcome of its one
request: the decoded body on success; the two except clauses translated arm
by arm (httpx.RequestError first, then the generic Exception clause). -/
def search_places_under_location (name : String) (accurate : Int)
    (startTime endTime : Option Int) (start list_length : Int)
    (h : HttpResult) : Json :=
  match fetchJson h with
  | .ok j => j
  | .error (.requestError m) => errObj ("API request failed: " ++ m)
  | .error e => errObj ("An unexpected error occurred: " ++ e.str)

/-- The requests issued by one call of search_places_under_location: exactly
the one GET of the try block. -/
def search_places_under_location_issued (name : String) (accurate : Int)
    (startTime endTime : Option Int) (start list_length : Int) : List Request :=
  [search_places_under_location_request name accurate startTime endTime start list_length]

end cbdb_addr

namespace cbdb_addr_person

/-- The query-parameter dict built by search_places_under_location in
cbdb_addr_person/cbdb_addr_person.py (lines 34-45), textually identical to
the cbdb_addr module's. -/
def search_places_under_location_params (name : String) (accurate : Int)
    (startTime endTime : Option Int) (start list_length : Int) :
    List (String × PVal) :=
  [("name", PVal.s name), ("accurate", PVal.i accurate),
   ("start", PVal.i start), ("list", PVal.i list_length)]
  ++ (match startTime with | some t => [("startTime", PVal.i t)] | none => [])
  ++ (match endTime with | some t => [("endTime", PVal.i t)] | none => [])

/-- The single outbound request of search_places_under_location in
cbdb_addr_person/cbdb_addr_person.py. -/
def search_places_under_location_request (name : String) (accurate : Int)
    (startTime endTime : Option Int) (start list_length : Int) : Request :=
  { method := "GET"
    url := "https://input.cbdb.fas.harvard.edu/api/place_list"
    params := search_places_under_location_params name accurate startTime endTime start list_length
    body := none }

/-- The value returned by search_places_under_location in
cbdb_addr_person/cbdb_addr_person.py (lines 47-55). -/
def search_places_under_location (name : String) (accurate : Int)
    (startTime endTime : Option Int) (start list_length : Int)
    (h : HttpResult) : Json :=
  match fetchJson h with
  | .ok j => j
  | .error (.requestError m) => errObj ("API request failed: " ++ m)
  | .error e => errObj ("An unexpected error occurred: " ++ e.str)

/-- The requests issued by one call of search_places_under_location in
cbdb_addr_person/cbdb_addr_person.py. -/
def search_places_under_location_issued (name : String) (accurate : Int)
    (startTime endTime : Option Int) (start list_length : Int) : List Request :=
  [search_places_under_location_request name accurate startTime endTime start list_length]

/-- Rendering of an optional int argument into the payload dict: Python None
becomes JSON null under json.dumps. -/
def optIntJson : Option Int → Json
  | some n => Json.int n
  | none => Json.null

/-- Rendering of an optional string argument into the payload dict. -/
def optStrJson : Option String → Json
  | some s => Json.str s
  | none => Json.null

/-- The payload dict built by query_people_by_place in
cbdb_addr_person/cbdb_addr_person.py (lines 111-123): all eleven fields in
insertion order, None arguments carried as null. -/
def query_people_by_place_payload (people_place : List Int) (place_type : List String)
    (use_date : Int) (date_type : Option String)
    (date_start_time date_end_time dyn_start dyn_end : Option Int)
    (use_xy start list_length : Int) : Json :=
  Json.obj [
    ("peoplePlace", Json.arr (people_place.map Json.int)),
    ("placeType", Json.arr (place_type.map Json.str)),
    ("useDate", Json.int use_date),
    ("dateType", optStrJson date_type),
    ("dateStartTime", optIntJson date_start_time),
    ("dateEndTime", optIntJson date_end_time),
    ("dynStart", optIntJson dyn_start),
    ("dynEnd", optIntJson dyn_end),
    ("useXy", Json.int use_xy),
    ("start", Json.int start),
    ("list", Json.int list_length)]

/-- The single outbound request of query_people_by_place (lines 126-131): the
json.dumps text of the payload is spliced into the URL as the one
RequestPayload query parameter by an f-string; GET, no request body, no
params= dict. -/
def query_people_by_place_request (people_place : List Int) (place_type : List String)
    (use_date : Int) (date_type : Option String)
    (date_start_time date_end_time dyn_start dyn_end : Option Int)
    (use_xy start list_length : Int) : Request :=
  { method := "GET"
    url := "https://input.cbdb.fas.harvard.edu/api/query_place?RequestPayload=" ++
      (query_people_by_place_payload people_place place_type use_date date_type
        date_start_time date_end_time dyn_start dyn_end use_xy start list_length).dumps
    params := []
    body := none }

/-- The value returned by query_people_by_place (lines 128-137): decoded body
on success, with the same two except clauses as the location search. -/
def query_people_by_place (people_place : List Int) (place_type : List String)
    (use_date : Int) (date_type : Option String)
    (date_start_time date_end_time dyn_start dyn_end : Option Int)
    (use_xy start list_length : Int) (h : HttpResult) : Json :=
  match fetchJson h with
  | .ok j => j
  | .error (.requestError m) => errObj ("API request failed: " ++ m)
  | .error e => errObj ("An unexpected error occurred: " ++ e.str)

/-- The requests issued by one call of query_people_by_place: exactly the one
GET of the try block. -/
def query_people_by_place_issued (people_place : List Int) (place_type : List String)
    (use_date : Int) (date_type : Option String)
    (date_start_time date_end_time dyn_start dyn_end : Option Int)
    (use_xy start list_length : Int) : List Request :=
  [query_people_by_place_request people_place place_type use_date date_type
    date_start_time date_end_time dyn_start dyn_end use_xy start list_length]

end cbdb_addr_person

namespace chgis

/-- The query-parameter dict built by search_historical_places in
chgis/chgis.py (lines 52-59): fmt=json and n always, yr, ftyp and p only when
provided. -/
def search_historical_places_params (name : String) (year : Option Int)
    (feature_type parent : Option String) : List (String × PVal) :=
  [("fmt", PVal.s "json"), ("n", PVal.s name)]
  ++ (match year with | some y => [("yr", PVal.i y)] | none => [])
  ++ (match feature_type with | some f => [("ftyp", PVal.s f)] | none => [])
  ++ (match parent with | some p => [("p", PVal.s p)] | none => [])

/-- The single outbound request of search_historical_places: a GET on the
tgaz placename endpoint with the params dict, no request body. -/
def search_historical_places_request (name : String) (year : Option Int)
    (feature_type parent : Option String) : Request :=
  { method := "GET"
    url := "http://tgaz.fudan.edu.cn/tgaz/placename"
    params := search_historical_places_params name year feature_type parent
    body := none }

/-- Line 71 of chgis/chgis.py: `placenames[start-1:start-1+list_length] if
start <= len(placenames) else []`, with full Python slice semantics. -/
def paginatedSlice (placenames : List Json) (start list_length : Int) : List Json :=
  if start ≤ (placenames.length : Int) then
    pySlice placenames (start - 1) (start - 1 + list_length)
  else []

/-- Lines 78-82 of chgis/chgis.py: the pagination dict attached to the
response.  `L` is the length of the original undisplaced placenames list
(the local variable `placenames` still names it after the assignments);
total_pages is Python floor division `//`. -/
def paginationInfo (start list_length : Int) (paginated : List Json) (L : Nat) : Json :=
  Json.obj [
    ("start", Json.int start),
    ("end", Json.int (if 0 < paginated.length then
        min (start + paginated.length - 1) (L : Int) else start)),
    ("total_pages", Json.int (Int.fdiv ((L : Int) + list_length - 1) list_length))]

/-- The client-side pagination block of search_historical_places
(chgis/chgis.py lines 67-84), applied to the decoded response inside the try
block, so any exception it raises reaches the same except clauses.  Line by
line:

* `"placenames" in results and results["placenames"]` — key membership on a
  dict and Python truthiness of the value; on a decoded list, `in` is element
  membership followed by a TypeError on the string subscript, and on other
  non-dict values `in` itself raises a TypeError (for a decoded string body
  Python would substring-test and then slice it; we conservatively model any
  truthy non-list "placenames" value, and any non-dict body reaching the
  subscript, as the raised TypeError — no claim depends on those shapes);
* the slice `placenames[start-1:start-1+list_length] if start <=
  len(placenames) else []` with full Python slice semantics;
* the two dict assignments and the pagination dict, whose total_pages
  expression `(len(placenames) + list_length - 1) // list_length` is Python
  floor division and raises ZeroDivisionError when list_length = 0 (the
  message below is CPython's); `placenames` still names the original
  undisplaced list, so both `len(placenames)` occurrences are the full
  length L. -/
def paginateResults (results : Json) (start list_length : Int) : Except PyExc Json :=
  match results with
  | Json.obj kvs =>
    match lookupKV kvs "placenames" with
    | none => .ok results
    | some v =>
      if v.truthy = false then .ok results
      else
        match v with
        | Json.arr placenames =>
          if list_length = 0 then
            .error (.other "integer division or modulo by zero")
          else
            .ok (Json.obj (setKey
              (setKey
                (setKey kvs "placenames"
                  (Json.arr (paginatedSlice placenames start list_length)))
                "count of displayed results"
                (Json.str (toString (paginatedSlice placenames start list_length).length)))
              "pagination"
              (paginationInfo start list_length
                (paginatedSlice placenames start list_length) placenames.length)))
        | _ => .error (.other "TypeError while paginating a non-list placenames value")
  | Json.arr elems =>
      if elems.any (fun e => match e with | Json.str s => s = "placenames" | _ => false) then
        .error (.other "list indices must be integers or slices, not str")
      else .ok results
  | _ => .error (.other "argument of type is not iterable")

/-- The value returned by search_historical_places (chgis/chgis.py lines
61-89) as a function of the outcome of its one request: fetch, decode and
paginate inside the try block; the two except clauses translated arm by arm
(httpx.RequestError first, then the generic Exception clause, which is the
one that receives HTTPStatusError, ValueError and the pagination
exceptions). -/
def search_historical_places (name : String) (year : Option Int)
    (feature_type parent : Option String) (start list_length : Int)
    (h : HttpResult) : Json :=
  match (do paginateResults (← fetchJson h) start list_length : Except PyExc Json) with
  | .ok r => r
  | .error (.requestError m) => errObj ("API request failed: " ++ m)
  | .error e => errObj ("An unexpected error occurred: " ++ e.str)

/-- The requests issued by one call of search_historical_places: exactly the
one GET of the try block. -/
def search_historical_places_issued (name : String) (year : Option Int)
    (feature_type parent : Option String) (start list_length : Int) : List Request :=
  [search_historical_places_request name year feature_type parent]

/-- The identifier normalization of get_place_details (chgis/chgis.py lines
117-119): prepend hvd_ unless the identifier already starts with it. -/
def normalize_place_id (place_id : String) : String :=
  if pyStartswith place_id "hvd_" then place_id else "hvd_" ++ place_id

/-- The single outbound request of get_place_details (line 121 and 125): a
GET on the per-identifier detail path built from the normalized identifier,
no query parameters, no request body. -/
def get_place_details_request (place_id : String) : Request :=
  { method := "GET"
    url := "http://tgaz.fudan.edu.cn/tgaz/placename/json/" ++ normalize_place_id place_id
    params := []
    body := none }

/-- The source-note inspection of get_place_details (chgis/chgis.py lines
130-133): `if "source note" in place_data and isinstance(place_data["source
note"], str): pass`.  The guarded body is pass, so on a decoded dict the
check has no effect whatever the entry holds and the body is returned
unchanged.  But the membership test itself follows Python `in` semantics on
the decoded value: on a list it is element equality, and a list containing
the string "source note" then raises a TypeError at the string subscript; on
a string it is a substring test, and a string containing it likewise raises
at the subscript; on None, a bool or a number, `in` itself raises TypeError
(argument of type ... is not iterable).  A raised TypeError reaches the
generic except clause.  CPython quotes the type name in the message;
the apostrophes are elided here. -/
def sourceNoteCheck (place_data : Json) : Except PyExc Json :=
  match place_data with
  | Json.obj _ => .ok place_data
  | Json.arr elems =>
      if elems.any (fun e => match e with | Json.str t => t = "source note" | _ => false) then
        .error (.other "list indices must be integers or slices, not str")
      else .ok place_data
  | Json.str s =>
      if "source note".data <:+: s.data then
        .error (.other "string indices must be integers")
      else .ok place_data
  | Json.null => .error (.other "argument of type NoneType is not iterable")
  | Json.bool _ => .error (.other "argument of type bool is not iterable")
  | Json.int _ => .error (.other "argument of type int is not iterable")

/-- The value returned by get_place_details (chgis/chgis.py lines 123-145) as
a function of the outcome of its one request: fetch, decode, and run the
source-note inspection inside the try block (on a decoded dict it changes
nothing and the body is returned unmodified; on other decoded shapes it can
raise, see `sourceNoteCheck`); the four except clauses are translated arm by
arm (httpx.RequestError, httpx.HTTPStatusError, ValueError, Exception — the
clauses match disjoint exception classes, so clause order does not matter
here). -/
def get_place_details (place_id : String) (h : HttpResult) : Json :=
  match (do sourceNoteCheck (← fetchJson h) : Except PyExc Json) with
  | .ok j => j
  | .error (.requestError m) => errObj ("API request failed: " ++ m)
  | .error (.httpStatusError code) => errObj ("HTTP error status: " ++ toString code)
  | .error (.valueError m) => errObj ("Invalid response format: " ++ m)
  | .error (.other m) => errObj ("An unexpected error occurred: " ++ m)

/-- The requests issued by one call of get_place_details: exactly the one GET
of the try block. -/
def get_place_details_issued (place_id : String) : List Request :=
  [get_place_details_request place_id]

end chgis

section HelperLemmas

/-- Looking up the key just assigned yields the assigned value. -/
theorem lookupKV_setKey_self (kvs : List (String × Json)) (k : String) (v : Json) :
    lookupKV (setKey kvs k v) k = some v := by
  induction kvs with
  | nil => simp [setKey, lookupKV]
  | cons hd tl ih =>
    obtain ⟨k', w⟩ := hd
    by_cases h : k' = k
    · simp [setKey, h, lookupKV]
    · simp [setKey, h, lookupKV, ih]

/-- Assigning one key leaves every other key's lookup unchanged. -/
theorem lookupKV_setKey_ne (kvs : List (String × Json)) (k k' : String) (v : Json)
    (h : k' ≠ k) : lookupKV (setKey kvs k v) k' = lookupKV kvs k' := by
  induction kvs with
  | nil => simp [setKey, lookupKV, Ne.symm h]
  | cons hd tl ih =>
    obtain ⟨k'', w⟩ := hd
    by_cases hk : k'' = k
    · subst hk
      simp [setKey, lookupKV, Ne.symm h]
    · simp only [setKey, if_neg hk, lookupKV]
      by_cases hk' : k'' = k'
      · simp [hk']
      · simp [hk', ih]

/-- A character list is a prefix of itself followed by anything. -/
theorem isPrefixOf_append_self (l t : List Char) : l.isPrefixOf (l ++ t) = true := by
  induction l with
  | nil => simp [List.isPrefixOf]
  | cons c cs ih => simp [List.isPrefixOf, ih]

/-- Two appends cannot be equal when neither left part is a prefix of the
other. -/
theorem append_ne_of_isPrefixOf_false (p : List Char) :
    ∀ (q a b : List Char), p.isPrefixOf q = false → q.isPrefixOf p = false →
      p ++ a ≠ q ++ b := by
  induction p with
  | nil => intro q a b h1 _; simp [List.isPrefixOf] at h1
  | cons x xs ih =>
    intro q a b h1 h2
    cases q with
    | nil => simp [List.isPrefixOf] at h2
    | cons y ys =>
      by_cases hxy : x = y
      · subst hxy
        simp only [List.isPrefixOf, beq_self_eq_true, Bool.true_and] at h1 h2
        intro hcontra
        simp only [List.cons_append, List.cons.injEq, true_and] at hcontra
        exact ih ys a b h1 h2 hcontra
      · intro hcontra
        simp only [List.cons_append, List.cons.injEq] at hcontra
        exact hxy hcontra.1

/-- String version: two appends with distinct, mutually non-prefix left parts
differ. -/
theorem string_append_ne (p q a b : String)
    (h1 : p.data.isPrefixOf q.data = false) (h2 : q.data.isPrefixOf p.data = false) :
    p ++ a ≠ q ++ b := by
  intro hcontra
  have hd : (p ++ a).data = (q ++ b).data := by rw [hcontra]
  rw [String.data_append, String.data_append] at hd
  exact append_ne_of_isPrefixOf_false p.data q.data a.data b.data h1 h2 hd

/-- Floor division of two naturals viewed as integers is natural division. -/
theorem fdiv_ofNat (a b : Nat) : Int.fdiv (a : Int) (b : Int) = ((a / b : Nat) : Int) := by
  rw [Int.fdiv_eq_ediv _ (by positivity)]
  exact_mod_cast rfl

/-- fetchJson succeeds exactly on a 2xx response with a decodable body. -/
theorem fetchJson_success (status : Nat) (j : Json)
    (h1 : 200 ≤ status) (h2 : status < 300) :
    fetchJson (HttpResult.response status (Except.ok j)) = Except.ok j := by
  simp [fetchJson, h1, h2]

/-- The pagination block on a decoded object whose placenames entry is a
non-empty list and whose page size is non-zero: the three keys are assigned
and the updated object returned. -/
theorem paginateResults_nonempty (kvs : List (String × Json)) (pls : List Json)
    (start list_length : Int)
    (hpl : lookupKV kvs "placenames" = some (Json.arr pls)) (hne : pls ≠ [])
    (hll : list_length ≠ 0) :
    chgis.paginateResults (Json.obj kvs) start list_length = Except.ok (Json.obj
      (setKey
        (setKey
          (setKey kvs "placenames"
            (Json.arr (chgis.paginatedSlice pls start list_length)))
          "count of displayed results"
          (Json.str (toString (chgis.paginatedSlice pls start list_length).length)))
        "pagination"
        (chgis.paginationInfo start list_length
          (chgis.paginatedSlice pls start list_length) pls.length))) := by
  have htr : Json.truthy (Json.arr pls) = true := by
    cases pls with
    | nil => exact absurd rfl hne
    | cons a l => rfl
  simp [chgis.paginateResults, hpl, htr, hll]

/-- When the source-note inspection does not raise, it hands back the decoded
body itself. -/
theorem sourceNoteCheck_ok (j j' : Json) (h : chgis.sourceNoteCheck j = Except.ok j') :
    j' = j := by
  cases j with
  | null => simp [chgis.sourceNoteCheck] at h
  | bool b => simp [chgis.sourceNoteCheck] at h
  | int n => simp [chgis.sourceNoteCheck] at h
  | str s =>
    by_cases hc : "source note".data <:+: s.data
    · simp [chgis.sourceNoteCheck, hc] at h
    · simp only [chgis.sourceNoteCheck, if_neg hc, Except.ok.injEq] at h
      exact h.symm
  | arr es =>
    by_cases hc :
        (es.any (fun e => match e with | Json.str t => t = "source note" | _ => false)) = true
    · simp [chgis.sourceNoteCheck, hc] at h
    · simp only [chgis.sourceNoteCheck, if_neg hc, Except.ok.injEq] at h
      exact h.symm
  | obj kvs =>
    simp only [chgis.sourceNoteCheck, Except.ok.injEq] at h
    exact h.symm

end HelperLemmas

/-- C3: get_place_details builds the request path from hvd_ ++ place_id when
the identifier does not start with hvd_, leaves it unchanged when it does,
maps "80547" to path component "hvd_80547", leaves "hvd_80547" unchanged, and
the normalization is idempotent. -/
theorem place_id_normalization (place_id : String) :
    (pyStartswith place_id "hvd_" = false →
      chgis.get_place_details_request place_id =
        { method := "GET"
          url := "http://tgaz.fudan.edu.cn/tgaz/placename/json/" ++ ("hvd_" ++ place_id)
          params := []
          body := none }) ∧
    (pyStartswith place_id "hvd_" = true →
      chgis.get_place_details_request place_id =
        { method := "GET"
          url := "http://tgaz.fudan.edu.cn/tgaz/placename/json/" ++ place_id
          params := []
          body := none }) ∧
    chgis.normalize_place_id "80547" = "hvd_80547" ∧
    chgis.normalize_place_id "hvd_80547" = "hvd_80547" ∧
    chgis.normalize_place_id (chgis.normalize_place_id place_id) =
      chgis.normalize_place_id place_id := by
  have hpre : ∀ t : String, pyStartswith ("hvd_" ++ t) "hvd_" = true := by
    intro t
    unfold pyStartswith
    rw [String.data_append]
    exact isPrefixOf_append_self _ _
  refine ⟨?_, ?_, by decide, by decide, ?_⟩
  · intro h
    simp [chgis.get_place_details_request, chgis.normalize_place_id, h]
  · intro h
    simp [chgis.get_place_details_request, chgis.normalize_place_id, h]
  · by_cases h : pyStartswith place_id "hvd_"
    · simp [chgis.normalize_place_id, h]
    · simp [chgis.normalize_place_id, h, hpre place_id]

/-- Witness for C3 at the two identifiers named by the claim. -/
theorem place_id_normalization_witness :
    chgis.get_place_details_request "80547" =
      { method := "GET"
        url := "http://tgaz.fudan.edu.cn/tgaz/placename/json/" ++ ("hvd_" ++ "80547")
        params := []
        body := none } ∧
    chgis.get_place_details_request "hvd_80547" =
      { method := "GET"
        url := "http://tgaz.fudan.edu.cn/tgaz/placename/json/" ++ "hvd_80547"
        params := []
        body := none } :=
  ⟨(place_id_normalization "80547").1 (by decide),
   (place_id_normalization "hvd_80547").2.1 (by decide)⟩

/-- C9: the search_places_under_location defined in the cbdb_addr module and
the one defined in the cbdb_addr_person module build the same request and
return the same result for every input and every upstream behavior. -/
theorem duplicate_function_equivalence :
    (∀ (name : String) (accurate : Int) (startTime endTime : Option Int)
        (start list_length : Int),
      cbdb_addr.search_places_under_location_request name accurate startTime endTime
          start list_length =
        cbdb_addr_person.search_places_under_location_request name accurate startTime endTime
          start list_length) ∧
    (∀ (name : String) (accurate : Int) (startTime endTime : Option Int)
        (start list_length : Int) (h : HttpResult),
      cbdb_addr.search_places_under_location name accurate startTime endTime
          start list_length h =
        cbdb_addr_person.search_places_under_location name accurate startTime endTime
          start list_length h) :=
  ⟨fun _ _ _ _ _ _ => rfl, fun _ _ _ _ _ _ _ => rfl⟩

/-- C7: a transport-level failure makes every one of the tool operations
return an error dictionary whose message is "API request failed: " followed
by the exception text, and that message starts with "API request failed: ". -/
theorem transport_failure_uniform :
    (∀ (name : String) (accurate : Int) (startTime endTime : Option Int)
        (start list_length : Int) (msg : String),
      cbdb_addr.search_places_under_location name accurate startTime endTime
          start list_length (HttpResult.transportError msg) =
        errObj ("API request failed: " ++ msg)) ∧
    (∀ (name : String) (accurate : Int) (startTime endTime : Option Int)
        (start list_length : Int) (msg : String),
      cbdb_addr_person.search_places_under_location name accurate startTime endTime
          start list_length (HttpResult.transportError msg) =
        errObj ("API request failed: " ++ msg)) ∧
    (∀ (people_place : List Int) (place_type : List String) (use_date : Int)
        (date_type : Option String)
        (date_start_time date_end_time dyn_start dyn_end : Option Int)
        (use_xy start list_length : Int) (msg : String),
      cbdb_addr_person.query_people_by_place people_place place_type use_date date_type
          date_start_time date_end_time dyn_start dyn_end use_xy start list_length
          (HttpResult.transportError msg) =
        errObj ("API request failed: " ++ msg)) ∧
    (∀ (name : String) (year : Option Int) (feature_type parent : Option String)
        (start list_length : Int) (msg : String),
      chgis.search_historical_places name year feature_type parent start list_length
          (HttpResult.transportError msg) =
        errObj ("API request failed: " ++ msg)) ∧
    (∀ (place_id msg : String),
      chgis.get_place_details place_id (HttpResult.transportError msg) =
        errObj ("API request failed: " ++ msg)) ∧
    (∀ msg : String,
      pyStartswith ("API request failed: " ++ msg) "API request failed: " = true) := by
  refine ⟨fun _ _ _ _ _ _ _ => rfl, fun _ _ _ _ _ _ _ => rfl,
    fun _ _ _ _ _ _ _ _ _ _ _ _ => rfl, fun _ _ _ _ _ _ _ => rfl, fun _ _ => rfl, ?_⟩
  intro msg
  unfold pyStartswith
  rw [String.data_append]
  exact isPrefixOf_append_self _ _

/-- C4: the location search always sends name, accurate, start and list and
sends startTime and endTime exactly when supplied; the gazetteer search
always sends fmt=json and n and sends yr, ftyp and p exactly when year,
feature_type and parent were supplied; an unset optional never appears. -/
theorem param_omission_law :
    (∀ (name : String) (accurate : Int) (startTime endTime : Option Int)
        (start list_length : Int),
      "name" ∈ (cbdb_addr.search_places_under_location_params name accurate startTime endTime
          start list_length).map Prod.fst ∧
      "accurate" ∈ (cbdb_addr.search_places_under_location_params name accurate startTime endTime
          start list_length).map Prod.fst ∧
      "start" ∈ (cbdb_addr.search_places_under_location_params name accurate startTime endTime
          start list_length).map Prod.fst ∧
      "list" ∈ (cbdb_addr.search_places_under_location_params name accurate startTime endTime
          start list_length).map Prod.fst ∧
      ("startTime" ∈ (cbdb_addr.search_places_under_location_params name accurate startTime endTime
          start list_length).map Prod.fst ↔ startTime.isSome = true) ∧
      ("endTime" ∈ (cbdb_addr.search_places_under_location_params name accurate startTime endTime
          start list_length).map Prod.fst ↔ endTime.isSome = true)) ∧
    (∀ (name : String) (year : Option Int) (feature_type parent : Option String),
      ("fmt", PVal.s "json") ∈ chgis.search_historical_places_params name year feature_type parent ∧
      "n" ∈ (chgis.search_historical_places_params name year feature_type parent).map Prod.fst ∧
      ("yr" ∈ (chgis.search_historical_places_params name year feature_type parent).map Prod.fst ↔
        year.isSome = true) ∧
      ("ftyp" ∈ (chgis.search_historical_places_params name year feature_type parent).map Prod.fst ↔
        feature_type.isSome = true) ∧
      ("p" ∈ (chgis.search_historical_places_params name year feature_type parent).map Prod.fst ↔
        parent.isSome = true)) := by
  constructor
  · intro name accurate startTime endTime start list_length
    cases startTime <;> cases endTime <;>
      simp [cbdb_addr.search_places_under_location_params]
  · intro name year feature_type parent
    cases year <;> cases feature_type <;> cases parent <;>
      simp [chgis.search_historical_places_params]

/-- C5: query_people_by_place assembles one payload object holding all eleven
fields in order, with unset optional arguments carried as the JSON null
marker, serializes it with json.dumps, and sends it as the single
query-string parameter RequestPayload of a GET request with no request body
and no separate params dict. -/
theorem request_payload_null_law (people_place : List Int) (place_type : List String)
    (use_date : Int) (date_type : Option String)
    (date_start_time date_end_time dyn_start dyn_end : Option Int)
    (use_xy start list_length : Int) :
    (∃ entries,
      cbdb_addr_person.query_people_by_place_payload people_place place_type use_date
          date_type date_start_time date_end_time dyn_start dyn_end use_xy start
          list_length = Json.obj entries ∧
      entries.map Prod.fst = ["peoplePlace", "placeType", "useDate", "dateType",
        "dateStartTime", "dateEndTime", "dynStart", "dynEnd", "useXy", "start", "list"] ∧
      lookupKV entries "dateType" = some (cbdb_addr_person.optStrJson date_type) ∧
      lookupKV entries "dateStartTime" = some (cbdb_addr_person.optIntJson date_start_time) ∧
      lookupKV entries "dateEndTime" = some (cbdb_addr_person.optIntJson date_end_time) ∧
      lookupKV entries "dynStart" = some (cbdb_addr_person.optIntJson dyn_start) ∧
      lookupKV entries "dynEnd" = some (cbdb_addr_person.optIntJson dyn_end)) ∧
    cbdb_addr_person.optStrJson none = Json.null ∧
    cbdb_addr_person.optIntJson none = Json.null ∧
    (cbdb_addr_person.query_people_by_place_request people_place place_type use_date
        date_type date_start_time date_end_time dyn_start dyn_end use_xy start
        list_length).method = "GET" ∧
    (cbdb_addr_person.query_people_by_place_request people_place place_type use_date
        date_type date_start_time date_end_time dyn_start dyn_end use_xy start
        list_length).body = none ∧
    (cbdb_addr_person.query_people_by_place_request people_place place_type use_date
        date_type date_start_time date_end_time dyn_start dyn_end use_xy start
        list_length).params = [] ∧
    (cbdb_addr_person.query_people_by_place_request people_place place_type use_date
        date_type date_start_time date_end_time dyn_start dyn_end use_xy start
        list_length).url =
      "https://input.cbdb.fas.harvard.edu/api/query_place?RequestPayload=" ++
        Json.dumps (cbdb_addr_person.query_people_by_place_payload people_place place_type
          use_date date_type date_start_time date_end_time dyn_start dyn_end use_xy
          start list_length) := by
  refine ⟨⟨_, rfl, rfl, ?_, ?_, ?_, ?_, ?_⟩, rfl, rfl, rfl, rfl, rfl, rfl⟩ <;>
    simp [lookupKV]

/-- C6: get_place_details maps each failure category to its own message
template — transport failure, non-2xx HTTP status (with the numeric status
code in the message), JSON-decode failure and any other exception — the four
templates produce pairwise different messages whatever their parameters, and
a simulated HTTP 404 yields an error message containing the literal 404. -/
theorem place_details_error_categories :
    (∀ (place_id msg : String),
      chgis.get_place_details place_id (HttpResult.transportError msg) =
        errObj ("API request failed: " ++ msg)) ∧
    (∀ (place_id : String) (status : Nat) (body : Except String Json),
      ¬(200 ≤ status ∧ status < 300) →
      chgis.get_place_details place_id (HttpResult.response status body) =
        errObj ("HTTP error status: " ++ toString status)) ∧
    (∀ (place_id : String) (status : Nat) (msg : String),
      200 ≤ status → status < 300 →
      chgis.get_place_details place_id (HttpResult.response status (Except.error msg)) =
        errObj ("Invalid response format: " ++ msg)) ∧
    (∀ (m1 : String) (code : Nat) (m3 m4 : String),
      "API request failed: " ++ m1 ≠ "HTTP error status: " ++ toString code ∧
      "API request failed: " ++ m1 ≠ "Invalid response format: " ++ m3 ∧
      "API request failed: " ++ m1 ≠ "An unexpected error occurred: " ++ m4 ∧
      "HTTP error status: " ++ toString code ≠ "Invalid response format: " ++ m3 ∧
      "HTTP error status: " ++ toString code ≠ "An unexpected error occurred: " ++ m4 ∧
      "Invalid response format: " ++ m3 ≠ "An unexpected error occurred: " ++ m4) ∧
    (chgis.get_place_details "80547" (HttpResult.response 404 (Except.error "no body")) =
        errObj "HTTP error status: 404" ∧
      "404".data <:+: ("HTTP error status: " ++ toString (404 : Nat)).data) := by
  refine ⟨?_, ?_, ?_, ?_, rfl, by decide⟩
  · intro _ _; rfl
  · intro place_id status body h
    simp [chgis.get_place_details, fetchJson, h, Bind.bind, Except.bind]
  · intro place_id status msg h1 h2
    simp [chgis.get_place_details, fetchJson, h1, h2, Bind.bind, Except.bind]
  · intro m1 code m3 m4
    refine ⟨?_, ?_, ?_, ?_, ?_, ?_⟩ <;>
      exact string_append_ne _ _ _ _ (by decide) (by decide)

/-- Witness for C6: the non-2xx clause applied at the claim's concrete 404. -/
theorem place_details_error_categories_witness :
    chgis.get_place_details "80547" (HttpResult.response 404 (Except.ok Json.null)) =
      errObj ("HTTP error status: " ++ toString (404 : Nat)) :=
  place_details_error_categories.2.1 "80547" 404 (Except.ok Json.null) (by decide)

/-- C10: when the decoded gazetteer response has no placenames key, or its
placenames value is the empty list, search_historical_places returns the body
unchanged, whatever start and list_length are. -/
theorem pagination_skipped_on_empty (name : String) (year : Option Int)
    (feature_type parent : Option String) (start list_length : Int)
    (status : Nat) (kvs : List (String × Json))
    (h200 : 200 ≤ status) (h300 : status < 300)
    (h : lookupKV kvs "placenames" = none ∨
      lookupKV kvs "placenames" = some (Json.arr [])) :
    chgis.search_historical_places name year feature_type parent start list_length
      (HttpResult.response status (Except.ok (Json.obj kvs))) = Json.obj kvs := by
  have hfj := fetchJson_success status (Json.obj kvs) h200 h300
  rcases h with h | h <;>
    simp [chgis.search_historical_places, hfj, chgis.paginateResults, h, Json.truthy,
      Bind.bind, Except.bind]

/-- Witness for C10: one response with no placenames key and one with an
empty placenames list, both returned untouched. -/
theorem pagination_skipped_on_empty_witness :
    chgis.search_historical_places "x" none none none 1 10
        (HttpResult.response 200 (Except.ok (Json.obj [("memo", Json.str "m")]))) =
      Json.obj [("memo", Json.str "m")] ∧
    chgis.search_historical_places "x" none none none 7 0
        (HttpResult.response 200
          (Except.ok (Json.obj [("placenames", Json.arr [])]))) =
      Json.obj [("placenames", Json.arr [])] :=
  ⟨pagination_skipped_on_empty "x" none none none 1 10 200 _ (by decide) (by decide)
      (Or.inl rfl),
   pagination_skipped_on_empty "x" none none none 7 0 200 _ (by decide) (by decide)
      (Or.inr rfl)⟩

/-- C2: every tool operation issues at most one outbound request and, for
every input and upstream outcome, returns either the success-path value or a
dictionary whose single entry is the key error bound to a string message —
never both, never neither (the functions are total, so no raised failure
escapes). -/
theorem tools_total_and_result_shape :
    (∀ (name : String) (accurate : Int) (startTime endTime : Option Int)
        (start list_length : Int) (h : HttpResult),
      (cbdb_addr.search_places_under_location_issued name accurate startTime endTime
          start list_length).length ≤ 1 ∧
      ((∃ j, fetchJson h = Except.ok j ∧
          cbdb_addr.search_places_under_location name accurate startTime endTime
            start list_length h = j) ∨
        (∃ m, cbdb_addr.search_places_under_location name accurate startTime endTime
            start list_length h = errObj m))) ∧
    (∀ (people_place : List Int) (place_type : List String) (use_date : Int)
        (date_type : Option String)
        (date_start_time date_end_time dyn_start dyn_end : Option Int)
        (use_xy start list_length : Int) (h : HttpResult),
      (cbdb_addr_person.query_people_by_place_issued people_place place_type use_date
          date_type date_start_time date_end_time dyn_start dyn_end use_xy start
          list_length).length ≤ 1 ∧
      ((∃ j, fetchJson h = Except.ok j ∧
          cbdb_addr_person.query_people_by_place people_place place_type use_date
            date_type date_start_time date_end_time dyn_start dyn_end use_xy start
            list_length h = j) ∨
        (∃ m, cbdb_addr_person.query_people_by_place people_place place_type use_date
            date_type date_start_time date_end_time dyn_start dyn_end use_xy start
            list_length h = errObj m))) ∧
    (∀ (name : String) (year : Option Int) (feature_type parent : Option String)
        (start list_length : Int) (h : HttpResult),
      (chgis.search_historical_places_issued name year feature_type parent start
          list_length).length ≤ 1 ∧
      ((∃ j r, fetchJson h = Except.ok j ∧
          chgis.paginateResults j start list_length = Except.ok r ∧
          chgis.search_historical_places name year feature_type parent start
            list_length h = r) ∨
        (∃ m, chgis.search_historical_places name year feature_type parent start
            list_length h = errObj m))) ∧
    (∀ (place_id : String) (h : HttpResult),
      (chgis.get_place_details_issued place_id).length ≤ 1 ∧
      ((∃ j, fetchJson h = Except.ok j ∧ chgis.get_place_details place_id h = j) ∨
        (∃ m, chgis.get_place_details place_id h = errObj m))) := by
  refine ⟨?_, ?_, ?_, ?_⟩
  · intro name accurate startTime endTime start list_length h
    refine ⟨le_refl 1, ?_⟩
    cases h with
    | transportError msg => exact Or.inr ⟨"API request failed: " ++ msg, rfl⟩
    | response status body =>
      by_cases h2 : 200 ≤ status ∧ status < 300
      · cases body with
        | ok j =>
          exact Or.inl ⟨j, by simp [fetchJson, h2],
            by simp [cbdb_addr.search_places_under_location, fetchJson, h2]⟩
        | error msg =>
          exact Or.inr ⟨"An unexpected error occurred: " ++ PyExc.str (.valueError msg),
            by simp [cbdb_addr.search_places_under_location, fetchJson, h2]⟩
      · exact Or.inr ⟨"An unexpected error occurred: " ++ PyExc.str (.httpStatusError status),
          by simp [cbdb_addr.search_places_under_location, fetchJson, h2]⟩
  · intro people_place place_type use_date date_type date_start_time date_end_time
      dyn_start dyn_end use_xy start list_length h
    refine ⟨le_refl 1, ?_⟩
    cases h with
    | transportError msg => exact Or.inr ⟨"API request failed: " ++ msg, rfl⟩
    | response status body =>
      by_cases h2 : 200 ≤ status ∧ status < 300
      · cases body with
        | ok j =>
          exact Or.inl ⟨j, by simp [fetchJson, h2],
            by simp [cbdb_addr_person.query_people_by_place, fetchJson, h2]⟩
        | error msg =>
          exact Or.inr ⟨"An unexpected error occurred: " ++ PyExc.str (.valueError msg),
            by simp [cbdb_addr_person.query_people_by_place, fetchJson, h2]⟩
      · exact Or.inr ⟨"An unexpected error occurred: " ++ PyExc.str (.httpStatusError status),
          by simp [cbdb_addr_person.query_people_by_place, fetchJson, h2]⟩
  · intro name year feature_type parent start list_length h
    refine ⟨le_refl 1, ?_⟩
    cases h with
    | transportError msg => exact Or.inr ⟨"API request failed: " ++ msg, rfl⟩
    | response status body =>
      by_cases h2 : 200 ≤ status ∧ status < 300
      · cases body with
        | ok j =>
          rcases hpp : chgis.paginateResults j start list_length with e | r
          · cases e with
            | requestError m =>
              exact Or.inr ⟨"API request failed: " ++ m,
                by simp [chgis.search_historical_places, fetchJson, h2, hpp,
                  Bind.bind, Except.bind]⟩
            | httpStatusError code =>
              exact Or.inr ⟨"An unexpected error occurred: " ++
                  PyExc.str (.httpStatusError code),
                by simp [chgis.search_historical_places, fetchJson, h2, hpp,
                  Bind.bind, Except.bind]⟩
            | valueError m =>
              exact Or.inr ⟨"An unexpected error occurred: " ++ PyExc.str (.valueError m),
                by simp [chgis.search_historical_places, fetchJson, h2, hpp,
                  Bind.bind, Except.bind]⟩
            | other m =>
              exact Or.inr ⟨"An unexpected error occurred: " ++ PyExc.str (.other m),
                by simp [chgis.search_historical_places, fetchJson, h2, hpp,
                  Bind.bind, Except.bind]⟩
          · exact Or.inl ⟨j, r, by simp [fetchJson, h2], hpp,
              by simp [chgis.search_historical_places, fetchJson, h2, hpp,
                Bind.bind, Except.bind]⟩
        | error msg =>
          exact Or.inr ⟨"An unexpected error occurred: " ++ PyExc.str (.valueError msg),
            by simp [chgis.search_historical_places, fetchJson, h2, Bind.bind, Except.bind]⟩
      · exact Or.inr ⟨"An unexpected error occurred: " ++ PyExc.str (.httpStatusError status),
          by simp [chgis.search_historical_places, fetchJson, h2, Bind.bind, Except.bind]⟩
  · intro place_id h
    refine ⟨le_refl 1, ?_⟩
    cases h with
    | transportError msg => exact Or.inr ⟨"API request failed: " ++ msg, rfl⟩
    | response status body =>
      by_cases h2 : 200 ≤ status ∧ status < 300
      · cases body with
        | ok j =>
          rcases hsn : chgis.sourceNoteCheck j with e | j'
          · cases e with
            | requestError m =>
              exact Or.inr ⟨"API request failed: " ++ m,
                by simp [chgis.get_place_details, fetchJson, h2, hsn, Bind.bind, Except.bind]⟩
            | httpStatusError code =>
              exact Or.inr ⟨"HTTP error status: " ++ toString code,
                by simp [chgis.get_place_details, fetchJson, h2, hsn, Bind.bind, Except.bind]⟩
            | valueError m =>
              exact Or.inr ⟨"Invalid response format: " ++ m,
                by simp [chgis.get_place_details, fetchJson, h2, hsn, Bind.bind, Except.bind]⟩
            | other m =>
              exact Or.inr ⟨"An unexpected error occurred: " ++ m,
                by simp [chgis.get_place_details, fetchJson, h2, hsn, Bind.bind, Except.bind]⟩
          · have hj : j' = j := sourceNoteCheck_ok j j' hsn
            subst hj
            exact Or.inl ⟨j', by simp [fetchJson, h2],
              by simp [chgis.get_place_details, fetchJson, h2, hsn, Bind.bind, Except.bind]⟩
        | error msg =>
          exact Or.inr ⟨"Invalid response format: " ++ msg,
            by simp [chgis.get_place_details, fetchJson, h2, Bind.bind, Except.bind]⟩
      · exact Or.inr ⟨"HTTP error status: " ++ toString status,
          by simp [chgis.get_place_details, fetchJson, h2, Bind.bind, Except.bind]⟩

/-- C8 (amended: the place-detail pass-through is stated for decoded object
bodies, the shape that has fields — on a scalar body the source-note
membership test itself raises and an error dictionary comes back, see the
counterexample): a successful upstream response is passed through
field-for-field: the location search (both copies) and the person query
return any decoded body unchanged; get_place_details returns any decoded
object unchanged — including a malformed free-text source note carried as an
opaque string — and the gazetteer search leaves every key other than
placenames, the displayed-count field and pagination untouched (its
pagination parameters taken with a non-zero page size, since a zero page
size makes the mandated post-processing itself raise). -/
theorem success_passthrough :
    (∀ (name : String) (accurate : Int) (startTime endTime : Option Int)
        (start list_length : Int) (status : Nat) (j : Json),
      200 ≤ status → status < 300 →
      cbdb_addr.search_places_under_location name accurate startTime endTime start
        list_length (HttpResult.response status (Except.ok j)) = j) ∧
    (∀ (name : String) (accurate : Int) (startTime endTime : Option Int)
        (start list_length : Int) (status : Nat) (j : Json),
      200 ≤ status → status < 300 →
      cbdb_addr_person.search_places_under_location name accurate startTime endTime start
        list_length (HttpResult.response status (Except.ok j)) = j) ∧
    (∀ (people_place : List Int) (place_type : List String) (use_date : Int)
        (date_type : Option String)
        (date_start_time date_end_time dyn_start dyn_end : Option Int)
        (use_xy start list_length : Int) (status : Nat) (j : Json),
      200 ≤ status → status < 300 →
      cbdb_addr_person.query_people_by_place people_place place_type use_date date_type
        date_start_time date_end_time dyn_start dyn_end use_xy start list_length
        (HttpResult.response status (Except.ok j)) = j) ∧
    (∀ (place_id : String) (status : Nat) (kvs : List (String × Json)),
      200 ≤ status → status < 300 →
      chgis.get_place_details place_id
        (HttpResult.response status (Except.ok (Json.obj kvs))) = Json.obj kvs) ∧
    chgis.get_place_details "80547" (HttpResult.response 200 (Except.ok
        (Json.obj [("source note", Json.str "\x7b \"truncated\": ")]))) =
      Json.obj [("source note", Json.str "\x7b \"truncated\": ")] ∧
    (∀ (name : String) (year : Option Int) (feature_type parent : Option String)
        (start list_length : Int) (status : Nat) (kvs : List (String × Json))
        (k : String),
      200 ≤ status → status < 300 → list_length ≠ 0 →
      (lookupKV kvs "placenames" = none ∨
        ∃ pls, lookupKV kvs "placenames" = some (Json.arr pls)) →
      k ≠ "placenames" → k ≠ "count of displayed results" → k ≠ "pagination" →
      ∃ kvs', chgis.search_historical_places name year feature_type parent start
          list_length (HttpResult.response status (Except.ok (Json.obj kvs))) =
          Json.obj kvs' ∧
        lookupKV kvs' k = lookupKV kvs k) := by
  refine ⟨?_, ?_, ?_, ?_, rfl, ?_⟩
  · intro name accurate startTime endTime start list_length status j h1 h2
    simp [cbdb_addr.search_places_under_location, fetchJson_success status j h1 h2]
  · intro name accurate startTime endTime start list_length status j h1 h2
    simp [cbdb_addr_person.search_places_under_location, fetchJson_success status j h1 h2]
  · intro people_place place_type use_date date_type date_start_time date_end_time
      dyn_start dyn_end use_xy start list_length status j h1 h2
    simp [cbdb_addr_person.query_people_by_place, fetchJson_success status j h1 h2]
  · intro place_id status kvs h1 h2
    simp [chgis.get_place_details, fetchJson_success status (Json.obj kvs) h1 h2,
      chgis.sourceNoteCheck, Bind.bind, Except.bind]
  · intro name year feature_type parent start list_length status kvs k h1 h2 hll hpl
      hk1 hk2 hk3
    have hfj := fetchJson_success status (Json.obj kvs) h1 h2
    rcases hpl with hpl | ⟨pls, hpl⟩
    · exact ⟨kvs, by simp [chgis.search_historical_places, hfj, chgis.paginateResults,
        hpl, Bind.bind, Except.bind], rfl⟩
    · cases pls with
      | nil =>
        exact ⟨kvs, by simp [chgis.search_historical_places, hfj, chgis.paginateResults,
          hpl, Json.truthy, Bind.bind, Except.bind], rfl⟩
      | cons p0 ptl =>
        have hpp := paginateResults_nonempty kvs (p0 :: ptl) start list_length hpl
          (by simp) hll
        refine ⟨setKey
            (setKey
              (setKey kvs "placenames"
                (Json.arr (chgis.paginatedSlice (p0 :: ptl) start list_length)))
              "count of displayed results"
              (Json.str (toString (chgis.paginatedSlice (p0 :: ptl) start list_length).length)))
            "pagination"
            (chgis.paginationInfo start list_length
              (chgis.paginatedSlice (p0 :: ptl) start list_length) (p0 :: ptl).length),
          ?_, ?_⟩
        · simp [chgis.search_historical_places, hfj, hpp, Bind.bind, Except.bind]
        · rw [lookupKV_setKey_ne _ _ _ _ hk3, lookupKV_setKey_ne _ _ _ _ hk2,
            lookupKV_setKey_ne _ _ _ _ hk1]

/-- Witness for C8: a 204-status body passes through the location search, the
malformed source-note object passes through get_place_details, and for a
gazetteer response with a one-element placenames list the unrelated memo key
is preserved. -/
theorem success_passthrough_witness :
    cbdb_addr.search_places_under_location "x" 1 none none 1 10
        (HttpResult.response 200 (Except.ok (Json.int 5))) = Json.int 5 ∧
    chgis.get_place_details "80547" (HttpResult.response 299 (Except.ok
        (Json.obj [("source note", Json.str "\x7b \"truncated\": ")]))) =
      Json.obj [("source note", Json.str "\x7b \"truncated\": ")] ∧
    ∃ kvs', chgis.search_historical_places "x" none none none 1 10
        (HttpResult.response 200 (Except.ok (Json.obj
          [("memo", Json.str "m"), ("placenames", Json.arr [Json.int 7])]))) =
        Json.obj kvs' ∧
      lookupKV kvs' "memo" =
        lookupKV [("memo", Json.str "m"), ("placenames", Json.arr [Json.int 7])] "memo" :=
  ⟨success_passthrough.1 "x" 1 none none 1 10 200 (Json.int 5) (by decide) (by decide),
   success_passthrough.2.2.2.1 "80547" 299
     [("source note", Json.str "\x7b \"truncated\": ")] (by decide) (by decide),
   success_passthrough.2.2.2.2.2 "x" none none none 1 10 200
     [("memo", Json.str "m"), ("placenames", Json.arr [Json.int 7])] "memo"
     (by decide) (by decide) (by decide) (Or.inr ⟨[Json.int 7], rfl⟩)
     (by decide) (by decide) (by decide)⟩

/-- C8 counterexample: a successful upstream response (status 200, body
decoding to the bare number 5) is not passed through by get_place_details:
the membership test of chgis.py line 130 raises a TypeError on a
non-iterable decoded body, the generic except clause catches it, and the
caller receives the error dictionary instead of the decoded payload. -/
theorem get_place_details_scalar_counterexample :
    chgis.get_place_details "80547" (HttpResult.response 200 (Except.ok (Json.int 5))) =
      errObj ("An unexpected error occurred: argument of type int is not iterable") ∧
    errObj ("An unexpected error occurred: argument of type int is not iterable") ≠
      Json.int 5 :=
  ⟨rfl, fun h => Json.noConfusion h⟩

/-- C1 (amended: the upstream placenames list must be non-empty, and the
pagination parameters are taken in their meaningful range start ≥ 1, page
size ≥ 1, on which the claim's index and ceiling formulas are defined).  For
a response whose placenames list has length L ≥ 1, search_historical_places
replaces the list with the elements at zero-based indices from s-1 up to
min(s-1+n, L) when s ≤ L and with the empty list when s > L, sets the
displayed-count field to the slice length rendered as a string, and attaches
a pagination object with start s, end min(s + slice_length - 1, L) for a
non-empty slice and s itself for an empty one, and total_pages the ceiling
division of L by n.  For L = 0 the claim fails: see the counterexample. -/
theorem chgis_pagination (name : String) (year : Option Int)
    (feature_type parent : Option String) (s n : Nat) (status : Nat)
    (kvs : List (String × Json)) (pls : List Json)
    (hlook : lookupKV kvs "placenames" = some (Json.arr pls))
    (hne : pls ≠ []) (hs : 1 ≤ s) (hn : 1 ≤ n)
    (h200 : 200 ≤ status) (h300 : status < 300) :
    ∃ kvs',
      chgis.search_historical_places name year feature_type parent (s : Int) (n : Int)
          (HttpResult.response status (Except.ok (Json.obj kvs))) = Json.obj kvs' ∧
      (let slice := if s ≤ pls.length then
          (pls.drop (s - 1)).take (min (s - 1 + n) pls.length - (s - 1))
        else []
       lookupKV kvs' "placenames" = some (Json.arr slice) ∧
       lookupKV kvs' "count of displayed results" =
         some (Json.str (toString slice.length)) ∧
       lookupKV kvs' "pagination" = some (Json.obj [
         ("start", Json.int (s : Int)),
         ("end", Json.int (if slice.length ≠ 0 then
             ((min (s + slice.length - 1) pls.length : Nat) : Int)
           else (s : Int))),
         ("total_pages", Json.int ((pls.length ⌈/⌉ n : Nat) : Int))])) := by
  have hfj := fetchJson_success status (Json.obj kvs) h200 h300
  have hnz : (n : Int) ≠ 0 := by omega
  have hpp := paginateResults_nonempty kvs pls (s : Int) (n : Int) hlook hne hnz
  have hslice : chgis.paginatedSlice pls (s : Int) (n : Int) =
      (if s ≤ pls.length then
        (pls.drop (s - 1)).take (min (s - 1 + n) pls.length - (s - 1))
      else []) := by
    unfold chgis.paginatedSlice
    by_cases hsl : s ≤ pls.length
    · rw [if_pos (by exact_mod_cast hsl), if_pos hsl]
      have e1 : pySliceIdx pls.length ((s : Int) - 1) = s - 1 := by
        unfold pySliceIdx
        rw [if_neg (by omega)]
        omega
      have e2 : pySliceIdx pls.length ((s : Int) - 1 + (n : Int)) =
          min (s - 1 + n) pls.length := by
        unfold pySliceIdx
        rw [if_neg (by omega)]
        omega
      unfold pySlice
      rw [e1, e2]
    · rw [if_neg (by omega), if_neg hsl]
  have hpag : ∀ slice : List Json,
      chgis.paginationInfo (s : Int) (n : Int) slice pls.length =
      Json.obj [
        ("start", Json.int (s : Int)),
        ("end", Json.int (if slice.length ≠ 0 then
            ((min (s + slice.length - 1) pls.length : Nat) : Int)
          else (s : Int))),
        ("total_pages", Json.int ((pls.length ⌈/⌉ n : Nat) : Int))] := by
    intro slice
    unfold chgis.paginationInfo
    have he : (if 0 < slice.length then
        min ((s : Int) + slice.length - 1) (pls.length : Int) else (s : Int)) =
        (if slice.length ≠ 0 then ((min (s + slice.length - 1) pls.length : Nat) : Int)
          else (s : Int)) := by
      by_cases hsl : slice.length = 0
      · simp [hsl]
      · rw [if_pos (Nat.pos_of_ne_zero hsl), if_pos hsl]
        omega
    have ht : Int.fdiv ((pls.length : Int) + (n : Int) - 1) (n : Int) =
        ((pls.length ⌈/⌉ n : Nat) : Int) := by
      rw [Nat.ceilDiv_eq_add_pred_div,
        show ((pls.length : Int) + (n : Int) - 1) = ((pls.length + n - 1 : Nat) : Int)
          by omega]
      exact fdiv_ofNat _ _
    rw [he, ht]
  refine ⟨setKey
      (setKey
        (setKey kvs "placenames"
          (Json.arr (chgis.paginatedSlice pls (s : Int) (n : Int))))
        "count of displayed results"
        (Json.str (toString (chgis.paginatedSlice pls (s : Int) (n : Int)).length)))
      "pagination"
      (chgis.paginationInfo (s : Int) (n : Int)
        (chgis.paginatedSlice pls (s : Int) (n : Int)) pls.length),
    ?_, ?_, ?_, ?_⟩
  · simp [chgis.search_historical_places, hfj, hpp, Bind.bind, Except.bind]
  · rw [lookupKV_setKey_ne _ _ _ _ (by decide), lookupKV_setKey_ne _ _ _ _ (by decide),
      lookupKV_setKey_self, hslice]
  · rw [lookupKV_setKey_ne _ _ _ _ (by decide), lookupKV_setKey_self, hslice]
  · rw [lookupKV_setKey_self, hpag, hslice]

/-- Witness for C1 at the concrete response of three placenames with start 2
and page size 2: slice is the second and third entries, displayed count "2",
pagination start 2, end 3, total_pages 2. -/
theorem chgis_pagination_witness :
    ∃ kvs',
      chgis.search_historical_places "龍" (some 800) none none ((2 : Nat) : Int)
          ((2 : Nat) : Int)
          (HttpResult.response 200 (Except.ok (Json.obj
            [("placenames", Json.arr [Json.int 10, Json.int 11, Json.int 12])]))) =
        Json.obj kvs' ∧
      lookupKV kvs' "placenames" = some (Json.arr [Json.int 11, Json.int 12]) ∧
      lookupKV kvs' "count of displayed results" = some (Json.str "2") ∧
      lookupKV kvs' "pagination" = some (Json.obj [
        ("start", Json.int 2), ("end", Json.int 3), ("total_pages", Json.int 2)]) := by
  obtain ⟨kvs', h1, h2, h3, h4⟩ :=
    chgis_pagination "龍" (some 800) none none 2 2 200
      [("placenames", Json.arr [Json.int 10, Json.int 11, Json.int 12])]
      [Json.int 10, Json.int 11, Json.int 12]
      rfl (by simp) (by decide) (by decide) (by decide) (by decide)
  refine ⟨kvs', h1, ?_, ?_, ?_⟩
  · rw [h2]
    rfl
  · rw [h3]
    rfl
  · rw [h4]
    rfl

/-- C1 counterexample: for the empty upstream placenames list (length L = 0,
start 1, page size 10) the claim as stated requires the displayed-count field
to be set to "0" and a pagination object with start 1, end 1 and total_pages
0 to be attached; the code's pagination block is skipped entirely (an empty
list is falsy), the body comes back unchanged, and the returned object has no
pagination entry at all. -/
theorem chgis_pagination_empty_counterexample :
    chgis.search_historical_places "x" none none none 1 10
        (HttpResult.response 200 (Except.ok (Json.obj [("placenames", Json.arr [])]))) =
      Json.obj [("placenames", Json.arr [])] ∧
    lookupKV [("placenames", Json.arr [])] "pagination" = none ∧
    lookupKV [("placenames", Json.arr [])] "count of displayed results" = none :=
  ⟨rfl, rfl, rfl⟩
